import Mathlib

/-!
Verification of the precision-policy selector (`WhisperHelper.auto_mixed_precision`
in `onnxruntime/transformers/models/whisper/whisper_helper.py`).

The graph data model is a shallow embedding of the ONNX protobuf pieces the
function touches: nodes with an operator type, a name, input names and output
names; constant initializer tensors; the graph's declared output names; and,
for the conversion pass, a map of tensor-type annotations.

Helpers that the source imports from sibling modules that are not part of the
repository snapshot (`float16.float_to_float16_max_diff`,
`OnnxModel.output_name_to_node`, `OnnxModel.get_initializer`,
`OnnxModel.convert_float_to_float16`) are modelled from the specification, as
marked in their doc comments.
-/

set_option autoImplicit false

namespace WhisperAMP

/-- Tensor element types, as far as the float16 conversion cares: 32-bit
float, 16-bit float, or anything else (left untouched by the conversion). -/
inductive TensorType where
  | fp32
  | fp16
  | other
deriving DecidableEq

/-- An operation node: `op_type` (operator kind tag), `name`, input tensor
names and output tensor names, mirroring ONNX `NodeProto`. -/
structure NodeProto where
  op_type : String
  name : String
  input : List String
  output : List String
deriving DecidableEq

/-- A constant weight tensor embedded in the graph, mirroring ONNX
`TensorProto`. Element values are modelled as exact rationals. -/
structure TensorProto where
  name : String
  float_data : List ℚ
deriving DecidableEq

/-- The computational graph: node list, initializer list, declared output
names (`graph.output[i].name`), and the tensor-type annotations (the type
information ONNX keeps on inputs, outputs and `value_info`, flattened into
one name-to-type list). -/
structure GraphProto where
  node : List NodeProto
  initializer : List TensorProto
  output : List String
  value_info : List (String × TensorType)
deriving DecidableEq

/-- The `OnnxModel` wrapper: the function only uses its graph accessors. -/
structure OnnxModel where
  graph : GraphProto
deriving DecidableEq

/-- Modelled from the spec: the graph "look up a node producing a given
output identifier" accessor (`OnnxModel.output_name_to_node`, defined in
`onnx_model.py`, which is not in the repository snapshot). The Python method
builds a dict by scanning nodes in order, so when several nodes list the same
output name the later node wins; we search the reversed node list. -/
def output_name_to_node (onnx_model : OnnxModel) (name : String) : Option NodeProto :=
  onnx_model.graph.node.reverse.find? fun n => n.output.contains name

/-- Modelled from the spec: the graph "look up an initializer by identifier"
accessor (`OnnxModel.get_initializer` in `onnx_model.py`, not in the
snapshot): the first initializer whose name matches. -/
def get_initializer (onnx_model : OnnxModel) (name : String) : Option TensorProto :=
  onnx_model.graph.initializer.find? fun t => t.name == name

/-- Rational multiplication, written through the normalizing constructor
`mkRat` so that concrete instances evaluate by kernel reduction. -/
def qmul (a b : ℚ) : ℚ := mkRat (a.num * b.num) (a.den * b.den)

/-- Rational subtraction, written through `mkRat` (cross-multiplied). -/
def qsub (a b : ℚ) : ℚ := mkRat (a.num * (b.den : ℤ) - b.num * (a.den : ℤ)) (a.den * b.den)

/-- The integer floor of a rational: floor division of numerator by
denominator. -/
def qfloor (x : ℚ) : ℤ := Int.fdiv x.num (x.den : ℤ)

/-- Embed an integer as a rational. -/
def qOfInt (n : ℤ) : ℚ := mkRat n 1

/-- `2 ^ e` as a rational, for an integer exponent. -/
def pow2 : ℤ → ℚ
  | Int.ofNat n => mkRat ((2 ^ n : ℕ) : ℤ) 1
  | Int.negSucc n => mkRat 1 (2 ^ (n + 1))

/-- Round a rational to the nearest integer, ties to even. -/
def rne (x : ℚ) : ℤ :=
  let f : ℤ := qfloor x
  let r : ℚ := qsub x (qOfInt f)
  if r < mkRat 1 2 then f
  else if mkRat 1 2 < r then f + 1
  else if f % 2 = 0 then f else f + 1

/-- Largest exponent `e` in `[-14, n - 15]` with `2 ^ e ≤ x`, searching
downward; returns `-14` when none is found. `findExpAux x 30` covers the
whole normal binade range of 16-bit floats, `e ∈ [-14, 15]`. -/
def findExpAux (x : ℚ) : ℕ → ℤ
  | 0 => -14
  | n + 1 => if pow2 ((n : ℤ) - 14) ≤ x then (n : ℤ) - 14 else findExpAux x n

/-- Round a nonnegative rational to 16-bit floating-point precision and back:
values at or above the overflow threshold `65520` clamp to the largest finite
16-bit value `65504` (the converter's `max_finite_val`), values below
`2 ^ (-14)` round on the subnormal grid of step `2 ^ (-24)`, and values in a
normal binade `[2 ^ e, 2 ^ (e + 1))` round to the nearest multiple of
`2 ^ (e - 10)` (11 significand bits), ties to even. -/
def fp16RoundPos (x : ℚ) : ℚ :=
  if mkRat 65520 1 ≤ x then mkRat 65504 1
  else if x < pow2 (-14) then qmul (qOfInt (rne (qmul x (pow2 24)))) (pow2 (-24))
  else
    let e := findExpAux x 30
    qmul (qOfInt (rne (qmul x (pow2 (10 - e))))) (pow2 (e - 10))

/-- Modelled from the spec: "the value obtained by rounding that value to
16-bit precision and back to 32-bit" — IEEE half-precision round-to-nearest,
extended to negative values by sign symmetry. -/
def fp16Round (x : ℚ) : ℚ :=
  if x < 0 then -fp16RoundPos (-x) else fp16RoundPos x

/-- `|x|` written with an explicit conditional. -/
def qabs (x : ℚ) : ℚ := if x < 0 then -x else x

/-- Binary maximum written with an explicit conditional. -/
def qmax (a b : ℚ) : ℚ := if a < b then b else a

/-- The element-wise deviation of one weight value from its 16-bit
round-trip. -/
def fp16Dev (v : ℚ) : ℚ := qabs (qsub v (fp16Round v))

/-- Modelled from the spec: `float_to_float16_max_diff` (imported by the
source from `float16.py`, which is not in the repository snapshot). Per spec
§4.1 step 3b it computes, element-wise, "the maximum absolute difference
between each weight value and the value obtained by rounding that value to
16-bit precision and back to 32-bit". -/
def float_to_float16_max_diff (tensor : TensorProto) : ℚ :=
  tensor.float_data.foldr (fun v acc => qmax (fp16Dev v) acc) 0

/-- The parameters dictionary returned by `auto_mixed_precision`. -/
structure Parameters where
  keep_io_types : List String
  op_block_list : List String
  node_block_list : List String
  force_fp16_initializers : Bool
deriving DecidableEq

/-- Outcome of the policy derivation: the two failure modes of the source
(`IndexError` from `graph().output[0]` on an output-less graph — the spec's
`MissingOutputError` — and the `assert logits_output_name in
output_name_to_node` failure) or the derived parameters. -/
inductive AMPResult where
  | missingOutput
  | assertFailed
  | ok (parameters : Parameters)
deriving DecidableEq

/-- The policy-derivation part of `WhisperHelper.auto_mixed_precision`
(whisper_helper.py lines 227–270): read the first declared output name, find
its producing node, and when that node is a MatMul probe its first
initializer-backed input for 16-bit-representable weights; derive
`keep_io_types`, `node_block_list` and `force_fp16_initializers`. -/
def auto_mixed_precision_params (onnx_model : OnnxModel) (op_block_list : List String) :
    AMPResult :=
  match onnx_model.graph.output.head? with
  | none => AMPResult.missingOutput
  | some logits_output_name =>
    match output_name_to_node onnx_model logits_output_name with
    | none => AMPResult.assertFailed
    | some node =>
      let last_matmul_node : Option NodeProto :=
        if node.op_type = "MatMul" then some node else none
      -- `for input in node.input: initializer = get_initializer(input); if ...: break`
      let initializer : Option TensorProto :=
        if node.op_type = "MatMul" then
          node.input.findSome? fun inp => get_initializer onnx_model inp
        else none
      let is_weight_fp16_precision : Bool :=
        if node.op_type = "MatMul" then
          match initializer with
          | some init => decide (float_to_float16_max_diff init < mkRat 1 1000000)
          -- The Python passes `None` on to `float_to_float16_max_diff`; that helper
          -- is not in the snapshot, and spec §4.1 step 3a fixes the outcome: "If
          -- none is found, skip to step 4 with 'weights are 16-bit' unresolved —
          -- treat as false."
          | none => false
        else false
      let keep_io_types : List String :=
        if !is_weight_fp16_precision && last_matmul_node.isSome then [logits_output_name]
        else []
      let node_block_list : List String :=
        match last_matmul_node with
        | some mm => if !is_weight_fp16_precision then [mm.name] else []
        | none => []
      AMPResult.ok
        { keep_io_types := keep_io_types
          op_block_list := op_block_list
          node_block_list := node_block_list
          force_fp16_initializers := is_weight_fp16_precision }

/-- A tensor is pinned to 32-bit when some node touching it (as an input or
an output) has a blocked operator kind or a blocked node name. -/
def tensor_blocked (parameters : Parameters) (g : GraphProto) (name : String) : Bool :=
  g.node.any fun n =>
    (parameters.op_block_list.contains n.op_type || parameters.node_block_list.contains n.name)
      && (n.input.contains name || n.output.contains name)

/-- Whether a tensor type participates in the float16 conversion. -/
def is_float_type : TensorType → Bool
  | TensorType.fp32 => true
  | TensorType.fp16 => true
  | TensorType.other => false

/-- The type a single tensor annotation receives under the conversion: float
tensors become 16-bit unless kept at 32-bit by `keep_io_types` or by a
blocked node; non-float tensors are untouched. -/
def convert_tensor_type (parameters : Parameters) (g : GraphProto) (name : String)
    (t : TensorType) : TensorType :=
  if is_float_type t then
    if parameters.keep_io_types.contains name || tensor_blocked parameters g name then
      TensorType.fp32
    else TensorType.fp16
  else t

/-- Modelled from the spec: `OnnxModel.convert_float_to_float16` (defined in
`float16.py` / `onnx_model.py`, not in the repository snapshot). Per spec
§4.1 step 6 it "performs a full-graph float32→float16 conversion respecting
the above exclusion sets": every float tensor-type annotation is rewritten to
16-bit unless the tensor is named in `keep_io_types` or touched by a node
whose kind is in `op_block_list` or whose name is in `node_block_list`. -/
def convert_float_to_float16 (parameters : Parameters) (g : GraphProto) : GraphProto :=
  { g with value_info := g.value_info.map fun vi => (vi.1, convert_tensor_type parameters g vi.1 vi.2) }

/-- The whole of `WhisperHelper.auto_mixed_precision`: derive the parameters
(lines 227–270), apply the float16 conversion to the model in place (line
273), and return the parameters (line 275). The mutated model is returned as
the second component. -/
def auto_mixed_precision (onnx_model : OnnxModel) (op_block_list : List String) :
    AMPResult × OnnxModel :=
  match auto_mixed_precision_params onnx_model op_block_list with
  | AMPResult.ok parameters =>
      (AMPResult.ok parameters, ⟨convert_float_to_float16 parameters onnx_model.graph⟩)
  | r => (r, onnx_model)

/-- The parameters of a successful derivation, `none` on either failure. -/
def ok_params : AMPResult → Option Parameters
  | AMPResult.ok p => some p
  | _ => none

/-- The source's default `op_block_list` (whisper_helper.py lines 212–217). -/
def default_op_block_list : List String :=
  ["SimplifiedLayerNormalization", "SkipSimplifiedLayerNormalization", "Relu", "Add"]

/-! ### Concrete graphs used as witnesses and counterexamples -/

/-- A graph whose first output `out` is produced by an `Add` node (not a
MatMul). -/
def exOnnxAdd : OnnxModel :=
  ⟨⟨[⟨"Add", "add_0", ["a", "b"], ["out"]⟩], [], ["out"],
    [("a", TensorType.fp32), ("b", TensorType.fp32), ("out", TensorType.fp32)]⟩⟩

/-- A graph with no declared outputs. -/
def exOnnxNoOutput : OnnxModel :=
  ⟨⟨[⟨"Relu", "relu_0", ["a"], ["b"]⟩], [], [], [("a", TensorType.fp32), ("b", TensorType.fp32)]⟩⟩

/-- A graph whose declared output `mystery` is produced by no node. -/
def exOnnxOrphan : OnnxModel :=
  ⟨⟨[⟨"Relu", "relu_0", ["a"], ["b"]⟩], [], ["mystery"], [("a", TensorType.fp32)]⟩⟩

/-- The spec §8 scenario: a single MatMul producing `logits` with weight
values `[0.1, 0.2, 0.3]`. -/
def exOnnxLogits : OnnxModel :=
  ⟨⟨[⟨"MatMul", "matmul_logits", ["x", "w"], ["logits"]⟩],
    [⟨"w", [mkRat 1 10, mkRat 2 10, mkRat 3 10]⟩], ["logits"],
    [("x", TensorType.fp32), ("w", TensorType.fp32), ("logits", TensorType.fp32)]⟩⟩

/-- A MatMul-producing graph whose weight values `[123456.789, 0.00001]`
round-trip through 16-bit precision with a large error (the first clamps to
the largest finite 16-bit value). -/
def exOnnxBigWeights : OnnxModel :=
  ⟨⟨[⟨"MatMul", "matmul_big", ["x", "w2"], ["big_logits"]⟩],
    [⟨"w2", [mkRat 123456789 1000, mkRat 1 100000]⟩], ["big_logits"],
    [("x", TensorType.fp32), ("w2", TensorType.fp32), ("big_logits", TensorType.fp32)]⟩⟩

/-- A MatMul-producing graph whose weight values `[0.5, -0.75, 2]` are all
exactly representable in 16-bit floating point. -/
def exOnnxExactWeights : OnnxModel :=
  ⟨⟨[⟨"MatMul", "matmul_exact", ["x", "w3"], ["exact_logits"]⟩],
    [⟨"w3", [mkRat 1 2, -(mkRat 3 4), mkRat 2 1]⟩], ["exact_logits"],
    [("x", TensorType.fp32), ("w3", TensorType.fp32), ("exact_logits", TensorType.fp32)]⟩⟩

/-- A MatMul-producing graph none of whose inputs is backed by an
initializer (the weight is supplied dynamically). -/
def exOnnxNoInit : OnnxModel :=
  ⟨⟨[⟨"MatMul", "matmul_dyn", ["x", "y"], ["dyn_logits"]⟩], [], ["dyn_logits"],
    [("x", TensorType.fp32), ("y", TensorType.fp32), ("dyn_logits", TensorType.fp32)]⟩⟩

/-- The parameters derived for `exOnnxAdd` (non-MatMul output producer). -/
def exParamsAdd : Parameters :=
  { keep_io_types := [], op_block_list := default_op_block_list, node_block_list := [],
    force_fp16_initializers := false }

/-! ### Helper lemmas -/

theorem le_qmax_left (a b : ℚ) : a ≤ qmax a b := by
  unfold qmax
  split
  · exact le_of_lt (by assumption)
  · exact le_refl a

theorem le_qmax_right (a b : ℚ) : b ≤ qmax a b := by
  unfold qmax
  split
  · exact le_refl b
  · exact le_of_not_lt (by assumption)

theorem fp16Dev_le_foldr (v : ℚ) (l : List ℚ) (hv : v ∈ l) :
    fp16Dev v ≤ l.foldr (fun w acc => qmax (fp16Dev w) acc) 0 := by
  induction l with
  | nil => cases hv
  | cons w ws ih =>
    rcases List.mem_cons.mp hv with h | h
    · subst h
      exact le_qmax_left _ _
    · exact le_trans (ih h) (le_qmax_right _ _)

theorem fp16Dev_le_max_diff (t : TensorProto) (v : ℚ) (hv : v ∈ t.float_data) :
    fp16Dev v ≤ float_to_float16_max_diff t :=
  fp16Dev_le_foldr v t.float_data hv

theorem qsub_self (v : ℚ) : qsub v v = 0 := by
  unfold qsub
  simp

theorem fp16Dev_eq_zero (v : ℚ) (h : fp16Round v = v) : fp16Dev v = 0 := by
  unfold fp16Dev
  rw [h, qsub_self]
  unfold qabs
  simp

theorem foldr_max_diff_zero (l : List ℚ) (h : ∀ v ∈ l, fp16Round v = v) :
    l.foldr (fun w acc => qmax (fp16Dev w) acc) 0 = 0 := by
  induction l with
  | nil => rfl
  | cons w ws ih =>
    simp only [List.foldr_cons]
    rw [fp16Dev_eq_zero w (h w (List.mem_cons_self w ws)),
      ih fun v hv => h v (List.mem_cons_of_mem w hv)]
    unfold qmax
    simp

theorem max_diff_exact (t : TensorProto) (h : ∀ v ∈ t.float_data, fp16Round v = v) :
    float_to_float16_max_diff t = 0 :=
  foldr_max_diff_zero t.float_data h

/-- Every successful derivation returns one of three parameter shapes:
output and node pinned with weights 32-bit, nothing pinned with weights
32-bit, or nothing pinned with weights 16-bit. -/
theorem params_cases (m : OnnxModel) (ob : List String) (p : Parameters)
    (h : auto_mixed_precision_params m ob = AMPResult.ok p) :
    (∃ out0 nodeName,
        p = { keep_io_types := [out0], op_block_list := ob, node_block_list := [nodeName],
              force_fp16_initializers := false }) ∨
    p = { keep_io_types := [], op_block_list := ob, node_block_list := [],
          force_fp16_initializers := false } ∨
    p = { keep_io_types := [], op_block_list := ob, node_block_list := [],
          force_fp16_initializers := true } := by
  unfold auto_mixed_precision_params at h
  cases hout : m.graph.output.head? with
  | none =>
    simp only [hout] at h
    cases h
  | some out0 =>
    simp only [hout] at h
    cases hnode : output_name_to_node m out0 with
    | none =>
      simp only [hnode] at h
      cases h
    | some node =>
      simp only [hnode] at h
      by_cases hop : node.op_type = "MatMul"
      · simp only [hop, if_true] at h
        cases hinit : node.input.findSome? fun inp => get_initializer m inp with
        | none =>
          simp only [hinit] at h
          simp only [AMPResult.ok.injEq] at h
          left
          exact ⟨out0, node.name, h.symm⟩
        | some init =>
          simp only [hinit] at h
          cases hw : decide (float_to_float16_max_diff init < mkRat 1 1000000) with
          | false =>
            simp only [hw] at h
            simp only [AMPResult.ok.injEq] at h
            left
            exact ⟨out0, node.name, h.symm⟩
          | true =>
            simp only [hw] at h
            simp only [AMPResult.ok.injEq] at h
            right; right
            exact h.symm
      · simp only [hop, if_false] at h
        simp only [AMPResult.ok.injEq] at h
        right; left
        exact h.symm

/-! ### Claims -/

/-- C1 counterexample: the claim says a non-MatMul output producer yields a
`keep_io_types` containing the graph's first output name. On the `Add`-output
graph the derivation succeeds but `keep_io_types` does not contain the output
name `out` (it is empty), so the claim as stated is false. -/
theorem c1_keep_io_types_counterexample :
    (ok_params (auto_mixed_precision_params exOnnxAdd default_op_block_list)).map
      (fun p => p.keep_io_types.contains "out") = some false := by
  decide

/-- C1 (amended): for every graph whose first declared output is produced by
a node that is not of MatMul kind, the derivation yields
`force_fp16_initializers = false`, an empty `node_block_list`, and an empty
`keep_io_types` (the output name is not kept at 32-bit, because no MatMul
node was found to pin). -/
theorem c1_non_matmul_output_policy (m : OnnxModel) (ob : List String) (out0 : String)
    (node : NodeProto) (hout : m.graph.output.head? = some out0)
    (hnode : output_name_to_node m out0 = some node) (hop : node.op_type ≠ "MatMul") :
    auto_mixed_precision_params m ob =
      AMPResult.ok { keep_io_types := [], op_block_list := ob, node_block_list := [],
                     force_fp16_initializers := false } := by
  unfold auto_mixed_precision_params
  simp only [hout, hnode]
  simp [hop]

/-- C1 witness: the amended theorem applied to the `Add`-output graph. -/
theorem c1_non_matmul_output_policy_witness :
    auto_mixed_precision_params exOnnxAdd default_op_block_list =
      AMPResult.ok { keep_io_types := [], op_block_list := default_op_block_list,
                     node_block_list := [], force_fp16_initializers := false } :=
  c1_non_matmul_output_policy exOnnxAdd default_op_block_list "out"
    ⟨"Add", "add_0", ["a", "b"], ["out"]⟩ (by decide) (by decide) (by decide)

/-- C6: a graph with no declared outputs fails with the missing-output error
(the spec's `MissingOutputError`; in the source an `IndexError` from
`graph().output[0]`), surfaced to the caller with no policy derived; a graph
with at least one declared output never produces this failure. -/
theorem c6_missing_output_error (m : OnnxModel) (ob : List String) :
    (m.graph.output = [] → auto_mixed_precision_params m ob = AMPResult.missingOutput) ∧
    (m.graph.output ≠ [] → auto_mixed_precision_params m ob ≠ AMPResult.missingOutput) := by
  constructor
  · intro h
    unfold auto_mixed_precision_params
    rw [h]
    rfl
  · intro h
    obtain ⟨x, xs, hx⟩ : ∃ x xs, m.graph.output = x :: xs := by
      cases hcase : m.graph.output with
      | nil => exact absurd hcase h
      | cons a as => exact ⟨a, as, rfl⟩
    unfold auto_mixed_precision_params
    rw [hx]
    simp only [List.head?_cons]
    cases houtn : output_name_to_node m x <;> simp

/-- C6 witness: the output-less graph fails with the missing-output error and
the `Add`-output graph does not. -/
theorem c6_missing_output_error_witness :
    auto_mixed_precision_params exOnnxNoOutput default_op_block_list = AMPResult.missingOutput ∧
    auto_mixed_precision_params exOnnxAdd default_op_block_list ≠ AMPResult.missingOutput :=
  ⟨(c6_missing_output_error exOnnxNoOutput default_op_block_list).1 rfl,
   (c6_missing_output_error exOnnxAdd default_op_block_list).2 (by decide)⟩

/-- C8: the computation is deterministic — on equal models and equal
operator block lists it returns equal parameters and equal mutated models.
The embedding is a pure function of exactly these two inputs, reflecting
that the source reads and writes no state outside the graph object. -/
theorem c8_deterministic (m1 m2 : OnnxModel) (ob1 ob2 : List String)
    (hm : m1 = m2) (hob : ob1 = ob2) :
    auto_mixed_precision m1 ob1 = auto_mixed_precision m2 ob2 := by
  subst hm
  subst hob
  rfl

/-- C8 witness: the determinism theorem applied at a concrete run. -/
theorem c8_deterministic_witness :
    auto_mixed_precision exOnnxAdd default_op_block_list =
      auto_mixed_precision exOnnxAdd default_op_block_list :=
  c8_deterministic exOnnxAdd exOnnxAdd default_op_block_list default_op_block_list rfl rfl

/-- C9: when the graph's first declared output is produced by no node, the
function fails on the `assert logits_output_name in output_name_to_node`
check before deriving any policy; when some node produces it, that assertion
never fires. -/
theorem c9_unproduced_output_assert (m : OnnxModel) (ob : List String) (out0 : String)
    (hout : m.graph.output.head? = some out0) :
    (output_name_to_node m out0 = none →
      auto_mixed_precision_params m ob = AMPResult.assertFailed) ∧
    (output_name_to_node m out0 ≠ none →
      auto_mixed_precision_params m ob ≠ AMPResult.assertFailed) := by
  constructor
  · intro h
    unfold auto_mixed_precision_params
    simp only [hout, h]
  · intro h
    obtain ⟨node, hn⟩ : ∃ node, output_name_to_node m out0 = some node := by
      cases hcase : output_name_to_node m out0 with
      | none => exact absurd hcase h
      | some node => exact ⟨node, rfl⟩
    unfold auto_mixed_precision_params
    simp only [hout, hn]
    simp

/-- C9 witness: the graph whose output is produced by no node hits the
assertion; the `Add`-output graph does not. -/
theorem c9_unproduced_output_assert_witness :
    auto_mixed_precision_params exOnnxOrphan default_op_block_list = AMPResult.assertFailed ∧
    auto_mixed_precision_params exOnnxAdd default_op_block_list ≠ AMPResult.assertFailed :=
  ⟨(c9_unproduced_output_assert exOnnxOrphan default_op_block_list "mystery" rfl).1 (by decide),
   (c9_unproduced_output_assert exOnnxAdd default_op_block_list "out" rfl).2 (by decide)⟩

/-- C10: in every successfully derived parameters value,
`force_fp16_initializers = true` implies `keep_io_types` and
`node_block_list` are both empty, and `keep_io_types` is non-empty exactly
when `node_block_list` is. -/
theorem c10_policy_invariants (m : OnnxModel) (ob : List String) (p : Parameters)
    (h : auto_mixed_precision_params m ob = AMPResult.ok p) :
    (p.force_fp16_initializers = true → p.keep_io_types = [] ∧ p.node_block_list = []) ∧
    (p.keep_io_types ≠ [] ↔ p.node_block_list ≠ []) := by
  rcases params_cases m ob p h with ⟨out0, nodeName, rfl⟩ | rfl | rfl <;> simp

/-- C10 witness: the invariant instantiated on the `Add`-output run. -/
theorem c10_policy_invariants_witness :
    (exParamsAdd.force_fp16_initializers = true →
      exParamsAdd.keep_io_types = [] ∧ exParamsAdd.node_block_list = []) ∧
    (exParamsAdd.keep_io_types ≠ [] ↔ exParamsAdd.node_block_list ≠ []) :=
  c10_policy_invariants exOnnxAdd default_op_block_list exParamsAdd (by decide)

/-- C2: when the first output is produced by a MatMul node none of whose
inputs is backed by an initializer, no error is raised: the derivation
succeeds, the absent initializer falls through to
`force_fp16_initializers = false`, and the policy (pinning the output tensor
and the MatMul node) is still produced. -/
theorem c2_missing_initializer_ok (m : OnnxModel) (ob : List String) (out0 : String)
    (node : NodeProto) (hout : m.graph.output.head? = some out0)
    (hnode : output_name_to_node m out0 = some node) (hop : node.op_type = "MatMul")
    (hnoinit : (node.input.findSome? fun inp => get_initializer m inp) = none) :
    auto_mixed_precision m ob =
      (AMPResult.ok { keep_io_types := [out0], op_block_list := ob,
                      node_block_list := [node.name], force_fp16_initializers := false },
       ⟨convert_float_to_float16
          { keep_io_types := [out0], op_block_list := ob,
            node_block_list := [node.name], force_fp16_initializers := false } m.graph⟩) := by
  have hp : auto_mixed_precision_params m ob =
      AMPResult.ok { keep_io_types := [out0], op_block_list := ob,
                     node_block_list := [node.name], force_fp16_initializers := false } := by
    unfold auto_mixed_precision_params
    simp only [hout, hnode, hop, hnoinit]
    simp
  unfold auto_mixed_precision
  rw [hp]

/-- C2 witness: the dynamic-weight MatMul graph derives and applies the
32-bit-pinning policy without error. -/
theorem c2_missing_initializer_ok_witness :
    auto_mixed_precision exOnnxNoInit default_op_block_list =
      (AMPResult.ok { keep_io_types := ["dyn_logits"], op_block_list := default_op_block_list,
                      node_block_list := ["matmul_dyn"], force_fp16_initializers := false },
       ⟨convert_float_to_float16
          { keep_io_types := ["dyn_logits"], op_block_list := default_op_block_list,
            node_block_list := ["matmul_dyn"], force_fp16_initializers := false }
          exOnnxNoInit.graph⟩) :=
  c2_missing_initializer_ok exOnnxNoInit default_op_block_list "dyn_logits"
    ⟨"MatMul", "matmul_dyn", ["x", "y"], ["dyn_logits"]⟩ (by decide) (by decide) rfl (by decide)

/-- C4: when the first output is produced by a MatMul whose found weight
initializer has some value deviating from its 16-bit round-trip by more than
`1e-6`, the derivation yields `force_fp16_initializers = false`,
`keep_io_types = [first output name]` and `node_block_list = [that node's
name]`. -/
theorem c4_inexact_weights_policy (m : OnnxModel) (ob : List String) (out0 : String)
    (node : NodeProto) (init : TensorProto) (v : ℚ)
    (hout : m.graph.output.head? = some out0)
    (hnode : output_name_to_node m out0 = some node) (hop : node.op_type = "MatMul")
    (hinit : (node.input.findSome? fun inp => get_initializer m inp) = some init)
    (hv : v ∈ init.float_data)
    (hdev : mkRat 1 1000000 < fp16Dev v) :
    auto_mixed_precision_params m ob =
      AMPResult.ok { keep_io_types := [out0], op_block_list := ob,
                     node_block_list := [node.name], force_fp16_initializers := false } := by
  have hmax : mkRat 1 1000000 < float_to_float16_max_diff init :=
    lt_of_lt_of_le hdev (fp16Dev_le_max_diff init v hv)
  have hnotlt : ¬float_to_float16_max_diff init < mkRat 1 1000000 := not_lt_of_gt hmax
  unfold auto_mixed_precision_params
  simp only [hout, hnode, hop, hinit]
  simp [hnotlt]

/-- C4 witness: the graph with weights `[123456.789, 0.00001]` (the first of
which clamps to 65504 under 16-bit rounding) derives the pinning policy. -/
theorem c4_inexact_weights_policy_witness :
    auto_mixed_precision_params exOnnxBigWeights default_op_block_list =
      AMPResult.ok { keep_io_types := ["big_logits"], op_block_list := default_op_block_list,
                     node_block_list := ["matmul_big"], force_fp16_initializers := false } :=
  c4_inexact_weights_policy exOnnxBigWeights default_op_block_list "big_logits"
    ⟨"MatMul", "matmul_big", ["x", "w2"], ["big_logits"]⟩
    ⟨"w2", [mkRat 123456789 1000, mkRat 1 100000]⟩ (mkRat 123456789 1000)
    (by decide) (by decide) rfl (by decide) (by decide) (by decide)

/-- C5: when the first output is produced by a MatMul whose found weight
initializer has every value exactly representable in 16-bit floating point
(each is a fixed point of the 16-bit round-trip), the derivation yields
`force_fp16_initializers = true`, `keep_io_types = []` and
`node_block_list = []`. -/
theorem c5_exact_weights_policy (m : OnnxModel) (ob : List String) (out0 : String)
    (node : NodeProto) (init : TensorProto)
    (hout : m.graph.output.head? = some out0)
    (hnode : output_name_to_node m out0 = some node) (hop : node.op_type = "MatMul")
    (hinit : (node.input.findSome? fun inp => get_initializer m inp) = some init)
    (hexact : ∀ v ∈ init.float_data, fp16Round v = v) :
    auto_mixed_precision_params m ob =
      AMPResult.ok { keep_io_types := [], op_block_list := ob, node_block_list := [],
                     force_fp16_initializers := true } := by
  have hlt : float_to_float16_max_diff init < mkRat 1 1000000 := by
    rw [max_diff_exact init hexact]
    decide
  unfold auto_mixed_precision_params
  simp only [hout, hnode, hop, hinit]
  simp [hlt]

/-- C5 witness: the graph with 16-bit-exact weights `[0.5, -0.75, 2]`
derives the full-16-bit policy. -/
theorem c5_exact_weights_policy_witness :
    auto_mixed_precision_params exOnnxExactWeights default_op_block_list =
      AMPResult.ok { keep_io_types := [], op_block_list := default_op_block_list,
                     node_block_list := [], force_fp16_initializers := true } :=
  c5_exact_weights_policy exOnnxExactWeights default_op_block_list "exact_logits"
    ⟨"MatMul", "matmul_exact", ["x", "w3"], ["exact_logits"]⟩
    ⟨"w3", [mkRat 1 2, -(mkRat 3 4), mkRat 2 1]⟩
    (by decide) (by decide) rfl (by decide) (by decide)

/-- C3 counterexample: on the spec's scenario graph (single MatMul producing
`logits`, weights `[0.1, 0.2, 0.3]`) the derivation succeeds but
`force_fp16_initializers` is `false`, not `true` as the claim states: `0.1`
rounds to `819/8192` in 16-bit precision, a deviation of `1/40960 ≈ 2.4e-5`,
well above the `1e-6` tolerance. -/
theorem c3_tenth_weights_counterexample :
    (ok_params (auto_mixed_precision_params exOnnxLogits default_op_block_list)).map
      (fun p => p.force_fp16_initializers) = some false := by
  decide

/-- C3 (amended): on that graph the derived policy is
`force_fp16_initializers = false`, `keep_io_types = ["logits"]`,
`node_block_list = ["matmul_logits"]`, because the values 0.1, 0.2, 0.3 all
deviate by more than `1e-6` under the 16-bit round-trip. -/
theorem c3_tenth_weights_policy :
    auto_mixed_precision_params exOnnxLogits default_op_block_list =
      AMPResult.ok { keep_io_types := ["logits"], op_block_list := default_op_block_list,
                     node_block_list := ["matmul_logits"], force_fp16_initializers := false } := by
  decide

theorem tensor_blocked_value_info (p : Parameters) (g : GraphProto)
    (vi : List (String × TensorType)) (name : String) :
    tensor_blocked p { g with value_info := vi } name = tensor_blocked p g name := rfl

theorem convert_tensor_type_value_info (p : Parameters) (g : GraphProto)
    (vi : List (String × TensorType)) (name : String) (t : TensorType) :
    convert_tensor_type p { g with value_info := vi } name t =
      convert_tensor_type p g name t := rfl

theorem convert_tensor_type_idem (p : Parameters) (g : GraphProto) (name : String)
    (t : TensorType) :
    convert_tensor_type p g name (convert_tensor_type p g name t) =
      convert_tensor_type p g name t := by
  cases hcond : p.keep_io_types.contains name || tensor_blocked p g name <;>
    cases t <;> simp [convert_tensor_type, is_float_type, hcond]

/-- C7: applying the derived policy's float16 conversion twice yields the
same tensor-type annotations as applying it once — on the already-converted
graph the second pass recomputes every annotation to the value it already
has (the node list, which drives the blocking conditions, is unchanged by
the conversion). -/
theorem c7_convert_idempotent (m : OnnxModel) (ob : List String) (p : Parameters)
    (h : auto_mixed_precision_params m ob = AMPResult.ok p) :
    convert_float_to_float16 p (convert_float_to_float16 p m.graph) =
      convert_float_to_float16 p m.graph := by
  unfold convert_float_to_float16
  simp only [convert_tensor_type_value_info, List.map_map]
  congr 1
  refine List.map_congr_left fun a _ => ?_
  simp only [Function.comp]
  exact congrArg (Prod.mk a.1) (convert_tensor_type_idem p m.graph a.1 a.2)

/-- C7 witness: idempotence of the conversion on the `Add`-output graph
under its derived policy. -/
theorem c7_convert_idempotent_witness :
    convert_float_to_float16 exParamsAdd (convert_float_to_float16 exParamsAdd exOnnxAdd.graph) =
      convert_float_to_float16 exParamsAdd exOnnxAdd.graph :=
  c7_convert_idempotent exOnnxAdd default_op_block_list exParamsAdd (by decide)

end WhisperAMP
